import Mathlib

/-!
Verification of the kcwater home-assistant integration core

Shallow embedding of `custom_components/kcwater/api.py` (API client) and
`custom_components/kcwater_ha/coordinator.py` (statistics reconciliation),
with theorems checking the natural-language specification against the code.

Modelling conventions:
* time is modelled as `Int`, measured in hours since an epoch (the source
  works with timezone-aware `datetime` values at hour resolution; the
  `timestamp()` comparison in the coordinator is order-isomorphic to the
  hour count);
* consumption amounts and persisted sums are modelled as `Rat` (the source
  uses Python floats; every claim-relevant computation is additions of
  decimal literals, which the spec treats as exact);
* the network and the recorder are modelled as environments: each request
  outcome (a response, a timeout, a connection failure, ...) is data chosen
  by the environment, and each operation returns, besides its result, the
  list of network calls it performed and the client state it left behind;
* Python exceptions that the client code can raise or catch are modelled by
  the `PyExc` type; the client's own exception hierarchy by `KCError`,
  whose three constructors stand for the three exception classes
  `KCWaterApiClientAuthenticationError`, `KCWaterApiClientCommunicationError`
  and the generic `KCWaterApiClientError`.
-/

deriving instance DecidableEq for Except

namespace KCWater

/-- URL constants from `api.py`. -/
def TOKEN_URL : String := "https://my.kcwater.us/rest/oauth/token"

def CUSTOMER_INFO_URL : String := "https://my.kcwater.us/rest/account/customer/"

def HOURLY_USAGE_URL : String := "https://my.kcwater.us/rest/usage/month/day"

/-- Constant `DOMAIN` from `kcwater_ha/const.py`, used by the coordinator. -/
def DOMAIN : String := "kcwater_ha"

/-- Dataclass `AccountContext` from `api.py`. -/
structure AccountContext where
  account_number : String
  service_id : String
  saccount_port : Nat
  deriving Repr, DecidableEq

/-- Dataclass `Account` from `api.py`; `token_exp` is an hour-resolution
instant in the America/Chicago reference timezone. -/
structure Account where
  customer_id : String
  access_token : String
  token_exp : Int
  context : AccountContext
  deriving Repr, DecidableEq

/-- Dataclass `Reading` from `api.py`.  `read_datetime` is the hour count of
the (timezone-aware) datetime stored by the source; `tz` records the
`tzinfo` attached by `replace(tzinfo=tz)`. -/
structure Reading where
  read_datetime : Int
  tz : String
  uom : String
  meter_number : Option String
  raw_consumption : Rat
  port : String
  deriving Repr, DecidableEq

/-- Points `StatisticData` handed to `async_add_external_statistics` by the
coordinator: `{start, state, sum}`. -/
structure StatisticData where
  start : Int
  state : Rat
  sum : Rat
  deriving Repr, DecidableEq

/-- Metadata `StatisticMetaData` built by the coordinator. -/
structure StatisticMetaData where
  has_mean : Bool
  has_sum : Bool
  name : String
  source : String
  statistic_id : String
  unit_of_measurement : String
  deriving Repr, DecidableEq

/-- One row returned by `statistics_during_period` (the coordinator reads
only the `start` timestamp and the `sum`). -/
structure StatRow where
  start : Int
  sum : Rat
  deriving Repr, DecidableEq

/-- The skip condition of the coordinator's merge loop:
`last_stats_time is not None and item.read_datetime.timestamp() <=
last_stats_time`. -/
def discards (last_stats_time : Option Int) (r : Reading) : Bool :=
  match last_stats_time with
  | some t => r.read_datetime ≤ t
  | none => false

/-- The merge loop of `KCWaterUpdateCoordinator._async_update_data`
(coordinator.py lines 106-121): iterate `usage`; `continue` on an item when
`discards` holds; otherwise `consumption_sum += item.raw_consumption` and
append `StatisticData(start=item.read_datetime, state=item.raw_consumption,
sum=consumption_sum)`. -/
def mergeLoop (last_stats_time : Option Int) (usage : List Reading)
    (consumption_sum : Rat) : List StatisticData :=
  match usage with
  | [] => []
  | item :: rest =>
    if discards last_stats_time item then
      mergeLoop last_stats_time rest consumption_sum
    else
      let s := consumption_sum + item.raw_consumption
      ⟨item.read_datetime, item.raw_consumption, s⟩ ::
        mergeLoop last_stats_time rest s

/-- The merge rule as the specification words it: iterate the readings, for
each one `running_sum += reading.amount` and emit
`{start: reading timestamp, state: reading amount, sum: running_sum}`.
Used only to compare the coordinator's loop against the spec. -/
def specMergePoints (running_sum : Rat) : List Reading → List StatisticData
  | [] => []
  | r :: rs =>
    let s := running_sum + r.raw_consumption
    ⟨r.read_datetime, r.raw_consumption, s⟩ :: specMergePoints s rs

/-- Total amount of a list of readings. -/
def amountsSum (rs : List Reading) : Rat :=
  (rs.map Reading.raw_consumption).sum

/-- Python exceptions that can be raised inside the `try` block of
`_api_wrapper` (api.py lines 229-239): the `TimeoutError` from
`async with timeout(10)`, `aiohttp.ClientError` and its
`ClientResponseError` subclass (the latter raised by
`response.raise_for_status()`), `socket.gaierror`, the client's own
`KCWaterApiClientAuthenticationError` raised by
`_verify_response_or_raise`, and anything else. -/
inductive PyExc where
  | timeoutError : PyExc
  | aiohttpClientError : PyExc
  | clientResponseError (status : Nat) : PyExc
  | socketGaierror : PyExc
  | kcAuthError (msg : String) : PyExc
  | otherException (msg : String) : PyExc
  deriving Repr, DecidableEq

/-- Whether an exception is an instance of `aiohttp.ClientError`
(`ClientResponseError` is a subclass). -/
def PyExc.isAiohttpClientError : PyExc → Bool
  | .aiohttpClientError => true
  | .clientResponseError _ => true
  | _ => false

/-- The client's exception hierarchy from api.py: the three constructors
stand for `KCWaterApiClientAuthenticationError`,
`KCWaterApiClientCommunicationError` and the generic
`KCWaterApiClientError`; the `cause` components model the
`raise ... from exception` chaining. -/
inductive KCError where
  | authenticationError (msg : String) : KCError
  | communicationError (msg : String) (cause : PyExc) : KCError
  | clientError (msg : String) (cause : Option PyExc) : KCError
  deriving Repr, DecidableEq

/-- Function `_verify_response_or_raise` (api.py lines 95-104): status 401/403, or
status 400 with the response url equal to `TOKEN_URL`, raises
`KCWaterApiClientAuthenticationError("Invalid credentials")`; otherwise
`response.raise_for_status()` raises `aiohttp.ClientResponseError` for any
status >= 400. -/
def verifyResponseOrRaise (status : Nat) (url : String) : Except PyExc Unit :=
  if status = 401 ∨ status = 403 ∨ (url = TOKEN_URL ∧ status = 400) then
    .error (.kcAuthError "Invalid credentials")
  else if 400 ≤ status then
    .error (.clientResponseError status)
  else
    .ok ()

/-- The `except` chain of `_api_wrapper` (api.py lines 241-255), applied to
whatever exception escaped the `try` block: `TimeoutError` and
`(aiohttp.ClientError, socket.gaierror)` become
`KCWaterApiClientCommunicationError`; every other exception - including the
`KCWaterApiClientAuthenticationError` raised by `_verify_response_or_raise`,
which matches none of the earlier clauses - is re-wrapped into the generic
`KCWaterApiClientError`. -/
def classifyException (e : PyExc) : KCError :=
  if e = .timeoutError then
    .communicationError "Timeout error fetching information" e
  else if e.isAiohttpClientError ∨ e = .socketGaierror then
    .communicationError "Error fetching information" e
  else
    .clientError "Something really wrong happened!" (some e)

/-- Outcome of one `self._session.request(...)` under the environment's
control: either a response (status, response url, parsed json body of type
`α`) or an exception raised by the request itself. -/
inductive RequestOutcome (α : Type) where
  | response (status : Nat) (url : String) (body : α) : RequestOutcome α
  | raised (e : PyExc) : RequestOutcome α

/-- One network call issued by the client: requested url and the timeout
bound (in the source's time units) wrapped around the request. -/
structure NetCall where
  url : String
  timeoutBound : Nat
  deriving Repr, DecidableEq

/-- Pure result of `_api_wrapper` (api.py lines 220-255) on a given request
outcome: verify the response and return the body, turning every raised
exception into a `KCError` via the `except` chain. -/
def apiWrapperResult {α : Type} (outcome : RequestOutcome α) :
    Except KCError α :=
  match outcome with
  | .raised e => .error (classifyException e)
  | .response status url body =>
    match verifyResponseOrRaise status url with
    | .error e => .error (classifyException e)
    | .ok _ => .ok body

/-- Wrapper `_api_wrapper` together with the network call it performs; the request
is wrapped in `async with timeout(10)`. -/
def apiWrapperRun {α : Type} (url : String) (outcome : RequestOutcome α) :
    Except KCError α × List NetCall :=
  (apiWrapperResult outcome, [⟨url, 10⟩])

/-- Body of a successful token-endpoint response:
`user.customerId`, `access_token`, `expires_in` (seconds). -/
structure TokenResponse where
  customerId : String
  access_token : String
  expires_in : Int
  deriving Repr, DecidableEq

/-- Body of a successful customer-info response:
`accountContext.accountNumber` and
`accountSummaryType.services[0].serviceId`. -/
structure CustomerInfoResponse where
  accountNumber : String
  serviceId : String
  deriving Repr, DecidableEq

/-- Environment for `async_login`: the outcomes of the token request and of
the customer-info request. -/
structure LoginEnv where
  tokenOutcome : RequestOutcome TokenResponse
  customerOutcome : RequestOutcome CustomerInfoResponse

/-- The renewal path of `async_login` (api.py lines 136-169), entered when
there is no cached account or the cached token has expired: POST to the
token endpoint, then POST to the customer-info endpoint, then replace
`self._account`.  On an exception the cached account is left as it was.
Returns (result, new client state, network calls). -/
def loginNetwork (st : Option Account) (now : Int) (env : LoginEnv) :
    Except KCError Unit × Option Account × List NetCall :=
  match apiWrapperRun TOKEN_URL env.tokenOutcome with
  | (.error e, calls1) => (.error e, st, calls1)
  | (.ok tok, calls1) =>
    match apiWrapperRun CUSTOMER_INFO_URL env.customerOutcome with
    | (.error e, calls2) => (.error e, st, calls1 ++ calls2)
    | (.ok info, calls2) =>
      (.ok (), some ⟨tok.customerId, tok.access_token,
          now + tok.expires_in, ⟨info.accountNumber, info.serviceId, 1⟩⟩,
        calls1 ++ calls2)

/-- Method `async_login` (api.py lines 130-169): if
`self._account and self._account.token_exp > datetime.now(tz)` then return
immediately without touching the network; otherwise renew. -/
def asyncLogin (st : Option Account) (now : Int) (env : LoginEnv) :
    Except KCError Unit × Option Account × List NetCall :=
  match st with
  | some acct =>
    if acct.token_exp > now then (.ok (), some acct, [])
    else loginNetwork st now env
  | none => loginNetwork st now env

/-- Method `get_account_number` (api.py lines 122-128): log in, then read
`self._account.context.account_number`. -/
def getAccountNumber (st : Option Account) (now : Int) (env : LoginEnv) :
    Except KCError String × Option Account × List NetCall :=
  match asyncLogin st now env with
  | (.error e, st1, calls) => (.error e, st1, calls)
  | (.ok _, st1, calls) =>
    match st1 with
    | none =>
      (.error (.clientError "Account not initialized after login" none),
        none, calls)
    | some a => (.ok a.context.account_number, st1, calls)

/-- A naive wall-clock instant at hour resolution, as produced by
`datetime.strptime(..., "%m-%d-%Y %I %p")`. -/
structure DateTime where
  year : Nat
  month : Nat
  day : Nat
  hour : Nat
  deriving Repr, DecidableEq

/-- Gregorian leap year. -/
def isLeapYear (y : Nat) : Bool :=
  (y % 4 = 0 && y % 100 ≠ 0) || y % 400 = 0

/-- Number of days of a month. -/
def daysInMonth (y m : Nat) : Nat :=
  if m = 2 then (if isLeapYear y then 29 else 28)
  else if m = 4 ∨ m = 6 ∨ m = 9 ∨ m = 11 then 30
  else 31

/-- Days since 1970-01-01 of a civil date (standard civil-from-days
inverse, valid for all dates handled here). -/
def daysFromCivil (year month day : Nat) : Int :=
  let y : Int := if month ≤ 2 then (year : Int) - 1 else (year : Int)
  let era : Int := (if 0 ≤ y then y else y - 399) / 400
  let yoe : Int := y - era * 400
  let mp : Int := if month > 2 then (month : Int) - 3 else (month : Int) + 9
  let doy : Int := (153 * mp + 2) / 5 + (day : Int) - 1
  let doe : Int := yoe * 365 + yoe / 4 - yoe / 100 + doy
  era * 146097 + doe - 719468

/-- Hour count of a `DateTime` since the epoch; subtracting
`timedelta(hours=1)` from a datetime subtracts 1 from this count, and two
datetimes compare like their hour counts. -/
def DateTime.epochHours (dt : DateTime) : Int :=
  daysFromCivil dt.year dt.month dt.day * 24 + (dt.hour : Int)

/-- Split a character list at a separator (the splitting of the source's
format string into `%m-%d-%Y` and `%I %p` fields). -/
def splitChars (sep : Char) : List Char → List (List Char)
  | [] => [[]]
  | c :: cs =>
    let r := splitChars sep cs
    if c = sep then [] :: r
    else
      match r with
      | [] => [[c]]
      | w :: ws => (c :: w) :: ws

/-- Decimal digit-string to number, `none` on the empty or non-numeric
field (where `strptime` raises `ValueError`). -/
def digitsToNat : List Char → Option Nat
  | [] => none
  | cs =>
    if cs.all Char.isDigit then
      some (cs.foldl (fun n c => n * 10 + (c.toNat - 48)) 0)
    else none

/-- Parsing `datetime.strptime(f"{readDate} {readDateTime}", "%m-%d-%Y %I %p")`
(api.py lines 206-208): `readDate` is `MM-DD-YYYY`, `readDateTime` is a
12-hour value and an AM/PM marker; the parsed result is validated against
the calendar (strptime builds a real `datetime`).  Returns `none` where the
source raises `ValueError`. -/
def parseHistoryTimestamp (readDate readDateTime : String) :
    Option DateTime :=
  match splitChars '-' readDate.data with
  | [ms, ds, ys] =>
    match splitChars ' ' readDateTime.data with
    | [hs, ap] =>
      match digitsToNat ms, digitsToNat ds, digitsToNat ys,
          digitsToNat hs with
      | some m, some d, some y, some h12 =>
        if 1 ≤ m ∧ m ≤ 12 ∧ 1 ≤ d ∧ d ≤ daysInMonth y m ∧
            1 ≤ h12 ∧ h12 ≤ 12 then
          if ap = ['A', 'M'] then
            some ⟨y, m, d, if h12 = 12 then 0 else h12⟩
          else if ap = ['P', 'M'] then
            some ⟨y, m, d, if h12 = 12 then 12 else h12 + 12⟩
          else none
        else none
      | _, _, _, _ => none
    | _ => none
  | _ => none

/-- One item of the `history` array of an hourly-usage response. -/
structure HistoryItem where
  readDate : String
  readDateTime : String
  uom : String
  meterNumber : Option String
  rawConsumption : Rat
  port : String
  deriving Repr, DecidableEq

/-- The reference timezone attached to every parsed reading
(`.replace(tzinfo=tz)` with `tz = America/Chicago`). -/
def chicago : String := "America/Chicago"

/-- Conversion of one history item into a `Reading` (api.py lines 205-216):
parse the combined timestamp, attach the reference timezone, and emit the
reading with `read_datetime = read_date - timedelta(hours=1)`. -/
def parseItem (it : HistoryItem) : Option Reading :=
  (parseHistoryTimestamp it.readDate it.readDateTime).map fun dt =>
    ⟨dt.epochHours - 1, chicago, it.uom, it.meterNumber,
      it.rawConsumption, it.port⟩

/-- Parsing of a whole `history` array; the first malformed item raises
`ValueError` in the source, modelled by `none`. -/
def parseHistory : List HistoryItem → Option (List Reading)
  | [] => some []
  | it :: rest =>
    match parseItem it with
    | none => none
    | some r =>
      match parseHistory rest with
      | none => none
      | some rs => some (r :: rs)

/-- How `async_get_data` can fail: with one of the client's `KCError`
exceptions out of `async_login`/`_api_wrapper`, or with the uncaught
`ValueError` from `strptime` on a malformed history item. -/
inductive FetchErr where
  | api (e : KCError) : FetchErr
  | valueError : FetchErr
  deriving Repr, DecidableEq

/-- Environment for `async_get_data`: the login environment used by the
per-day `async_login` calls, and the outcome of the hourly-usage request
for each queried day (days are identified by the hour count of their query
datetime). -/
structure FetchEnv where
  loginEnv : LoginEnv
  hourlyOutcome : Int → RequestOutcome (List HistoryItem)

/-- The per-day loop of `async_get_data` (api.py lines 184-217): for each
day, `await self.async_login()`, POST to the hourly-usage endpoint, parse
the `history` array, and accumulate readings.  Threads the client state and
collects the network calls; the first exception aborts the loop. -/
def getDataLoop (env : FetchEnv) (now : Int) (days : List Int)
    (st : Option Account) (acc : List Reading) :
    Except FetchErr (List Reading) × Option Account × List NetCall :=
  match days with
  | [] => (.ok acc, st, [])
  | day :: rest =>
    match asyncLogin st now env.loginEnv with
    | (.error e, st1, calls1) => (.error (.api e), st1, calls1)
    | (.ok _, st1, calls1) =>
      match apiWrapperRun HOURLY_USAGE_URL (env.hourlyOutcome day) with
      | (.error e, calls2) => (.error (.api e), st1, calls1 ++ calls2)
      | (.ok hist, calls2) =>
        match parseHistory hist with
        | none => (.error .valueError, st1, calls1 ++ calls2)
        | some rs =>
          match getDataLoop env now rest st1 (acc ++ rs) with
          | (res, st2, calls3) => (res, st2, calls1 ++ calls2 ++ calls3)

/-- The days queried by `async_get_data(start, end)`:
`start + timedelta(days=day)` for `day in range((end - start).days)`, with
times measured in hours. -/
def queriedDays (start end_ : Int) : List Int :=
  (List.range ((end_ - start).toNat / 24)).map fun i => start + 24 * i

/-- Method `async_get_data` (api.py lines 171-218): raise the generic
`KCWaterApiClientError` when `self._account is None`, otherwise run the
per-day loop over the half-open range of days. -/
def asyncGetData (st : Option Account) (now : Int) (start end_ : Int)
    (env : FetchEnv) :
    Except FetchErr (List Reading) × Option Account × List NetCall :=
  match st with
  | none =>
    (.error (.api (.clientError
        "Account not initialized. Call async_login first." none)),
      none, [])
  | some _ => getDataLoop env now (queriedDays start end_) st []

/-- Environment view of the recorder (the Statistics Store collaborator):
whether `get_last_statistics` returned anything, and the rows that
`statistics_during_period(start_time, None, {statistic_id}, "hour", None,
{"sum"})` returns for a given start time and statistic id.  The store
contract returns those rows in chronologically ascending order. -/
structure RecorderEnv where
  lastStatExists : Bool
  statsDuring : Int → String → List StatRow

/-- Observable effects of one `_async_update_data` invocation: the
`async_get_data` window it fetched and the batches it handed to
`async_add_external_statistics`. -/
inductive CoordOp where
  | fetchData (start end_ : Int) : CoordOp
  | addStatistics (meta : StatisticMetaData) (pts : List StatisticData) :
      CoordOp
  deriving Repr, DecidableEq

/-- Expression `min(usage, key=attrgetter("read_datetime")).read_datetime`
(coordinator.py line 96); `none` models the `ValueError` that `min` raises
on an empty sequence. -/
def minReadDatetime : List Reading → Option Int
  | [] => none
  | r :: rs =>
    some (rs.foldl
      (fun m x => if x.read_datetime < m then x.read_datetime else m)
      r.read_datetime)

/-- The incremental baseline selection (coordinator.py lines 93-104):
query `statistics_during_period` from the earliest fetched reading's
timestamp, then read `stats[consumption_statistic_id][0]` - the FIRST row
of the returned (chronologically ascending) list. -/
def incrementalBaseline (renv : RecorderEnv) (sid : String)
    (usage : List Reading) : Option StatRow :=
  match minReadDatetime usage with
  | none => none
  | some anchor => (renv.statsDuring anchor sid).head?

/-- The `StatisticMetaData` built by the coordinator
(coordinator.py lines 123-131). -/
def consumptionMetadata (account_number sid : String) : StatisticMetaData :=
  ⟨false, true, "Kansas City Water " ++ account_number ++ " Consumption",
    DOMAIN, sid, "ft³"⟩

/-- How `_async_update_data` can fail: an exception out of the client, the
`ValueError` from `min` on an empty fetch, or the `KeyError`/`IndexError`
when `stats[consumption_statistic_id][0]` is missing. -/
inductive UpdateErr where
  | client (e : FetchErr) : UpdateErr
  | emptySequence : UpdateErr
  | missingStats : UpdateErr
  deriving Repr, DecidableEq

/-- The statistic id derived by the coordinator (coordinator.py line 72):
`f"{DOMAIN}:{account_number}_water_consumption"`. -/
def statisticId (account_number : String) : String :=
  DOMAIN ++ ":" ++ account_number ++ "_water_consumption"

/-- Method `KCWaterUpdateCoordinator._async_update_data` (coordinator.py lines
66-140): resolve the account number (logging in if needed), decide
FirstRun/Incremental from `get_last_statistics`, fetch the corresponding
window, pick the running-sum baseline, run the merge loop, and submit one
batch to `async_add_external_statistics`.  Returns the result, the client
state left behind, and the observable store/fetch operations in order. -/
def asyncUpdateData (st : Option Account) (now : Int) (fenv : FetchEnv)
    (renv : RecorderEnv) :
    Except UpdateErr Unit × Option Account × List CoordOp :=
  match getAccountNumber st now fenv.loginEnv with
  | (.error e, st1, _) => (.error (.client (.api e)), st1, [])
  | (.ok account_number, st1, _) =>
    let sid := statisticId account_number
    if renv.lastStatExists = false then
      let start := now - 31 * 24
      let end_ := now - 1 * 24
      match asyncGetData st1 now start end_ fenv with
      | (.error e, st2, _) =>
        (.error (.client e), st2, [.fetchData start end_])
      | (.ok usage, st2, _) =>
        let pts := mergeLoop none usage 0
        (.ok (), st2, [.fetchData start end_,
          .addStatistics (consumptionMetadata account_number sid) pts])
    else
      let start := now - 2 * 24
      let end_ := now - 1 * 24
      match asyncGetData st1 now start end_ fenv with
      | (.error e, st2, _) =>
        (.error (.client e), st2, [.fetchData start end_])
      | (.ok usage, st2, _) =>
        match minReadDatetime usage with
        | none => (.error .emptySequence, st2, [.fetchData start end_])
        | some anchor =>
          match (renv.statsDuring anchor sid).head? with
          | none => (.error .missingStats, st2, [.fetchData start end_])
          | some row =>
            let pts := mergeLoop (some row.start) usage row.sum
            (.ok (), st2, [.fetchData start end_,
              .addStatistics (consumptionMetadata account_number sid) pts])

/-- Concrete account used by witnesses: cached token valid until hour
1000000. -/
def exAccount : Account :=
  ⟨"cust", "tok", 1000000, ⟨"12345", "svc", 1⟩⟩

/-- Concrete login environment used by witnesses: both endpoints respond
successfully. -/
def exLoginEnv : LoginEnv :=
  ⟨.response 200 TOKEN_URL ⟨"cust", "tok2", 3600⟩,
   .response 200 CUSTOMER_INFO_URL ⟨"12345", "svc"⟩⟩

/-- Concrete fetch environment used by witnesses: every hourly-usage
request succeeds with an empty history. -/
def exFetchEnvEmpty : FetchEnv :=
  ⟨exLoginEnv, fun _ => .response 200 HOURLY_USAGE_URL []⟩

/-- Concrete FirstRun recorder environment used by witnesses: no last
statistic exists. -/
def exRecorderFirstRun : RecorderEnv := ⟨false, fun _ _ => []⟩

/-- Whether a coordinator operation is a store submission. -/
def isAppend : CoordOp → Bool
  | .addStatistics _ _ => true
  | _ => false

theorem amountsSum_cons (r : Reading) (rs : List Reading) :
    amountsSum (r :: rs) = r.raw_consumption + amountsSum rs := by
  simp [amountsSum]

theorem mergeLoop_of_none_discarded (lt : Option Int) (rs : List Reading)
    (B : Rat) (h : ∀ r ∈ rs, discards lt r = false) :
    mergeLoop lt rs B = specMergePoints B rs := by
  induction rs generalizing B with
  | nil => rfl
  | cons r rest ih =>
    have hr : discards lt r = false := h r (List.mem_cons_self r rest)
    have hrest : ∀ x ∈ rest, discards lt x = false :=
      fun x hx => h x (List.mem_cons_of_mem r hx)
    rw [mergeLoop, specMergePoints]
    simp only [hr, Bool.false_eq_true, if_false]
    exact congrArg _ (ih _ hrest)

theorem specMergePoints_length (B : Rat) (rs : List Reading) :
    (specMergePoints B rs).length = rs.length := by
  induction rs generalizing B with
  | nil => rfl
  | cons r rest ih => simpa [specMergePoints] using ih _

theorem specMergePoints_ne_nil (B : Rat) (r : Reading) (rs : List Reading) :
    specMergePoints B (r :: rs) ≠ [] := by
  rw [specMergePoints]
  exact List.cons_ne_nil _ _

theorem specMergePoints_getLast_sum (B : Rat) (rs : List Reading)
    (h : rs ≠ []) :
    ∃ p, (specMergePoints B rs).getLast? = some p ∧
      p.sum = B + amountsSum rs := by
  induction rs generalizing B with
  | nil => exact absurd rfl h
  | cons r rest ih =>
    cases rest with
    | nil =>
      exact ⟨⟨r.read_datetime, r.raw_consumption, B + r.raw_consumption⟩,
        rfl, by simp [amountsSum]⟩
    | cons r2 rest2 =>
      obtain ⟨p, hp, hsum⟩ := ih (B + r.raw_consumption) (by simp)
      refine ⟨p, ?_, ?_⟩
      · rw [specMergePoints, List.getLast?_cons, hp]
        rfl
      · rw [hsum]
        simp only [amountsSum_cons]
        ring

theorem mergeLoop_skips_le (t : Int) (rs : List Reading) (S : Rat) :
    mergeLoop (some t) rs S =
      specMergePoints S (rs.filter (fun r => t < r.read_datetime)) := by
  induction rs generalizing S with
  | nil => rfl
  | cons r rest ih =>
    by_cases hle : r.read_datetime ≤ t
    · have hr : discards (some t) r = true := by simp [discards, hle]
      have hnot : ¬ t < r.read_datetime := not_lt.mpr hle
      rw [mergeLoop, List.filter_cons, if_pos hr, if_neg (by simpa using hnot)]
      exact ih S
    · have hr : discards (some t) r = false := by simp [discards, hle]
      have hlt : t < r.read_datetime := lt_of_not_le hle
      rw [mergeLoop, List.filter_cons,
        if_neg (by simp [hr]), if_pos (by simpa using hlt)]
      rw [specMergePoints]
      exact congrArg _ (ih _)

/-- C1: for every baseline sum B and every list of new (non-discarded)
readings in chronological order, the coordinator's merge loop emits exactly
the points of the spec's merge rule - one point
{start: reading timestamp, state: reading amount, sum: running sum} per new
reading - and the final point's sum equals B plus the sum of all merged
readings' amounts. -/
theorem C1_merge_postcondition (B : Rat) (lt : Option Int)
    (rs : List Reading)
    (_hchron : List.Chain'
      (fun a b => a.read_datetime ≤ b.read_datetime) rs)
    (hnew : ∀ r ∈ rs, discards lt r = false) :
    mergeLoop lt rs B = specMergePoints B rs ∧
    (mergeLoop lt rs B).length = rs.length ∧
    (rs ≠ [] → ∃ p, (mergeLoop lt rs B).getLast? = some p ∧
      p.sum = B + amountsSum rs) := by
  have he := mergeLoop_of_none_discarded lt rs B hnew
  refine ⟨he, ?_, ?_⟩
  · rw [he, specMergePoints_length]
  · intro hne
    rw [he]
    exact specMergePoints_getLast_sum B rs hne

/-- Witness for C1 at a concrete chronological two-reading list. -/
theorem C1_merge_postcondition_witness :
    mergeLoop none
        [⟨1, "America/Chicago", "CF", none, 2, "1"⟩,
         ⟨2, "America/Chicago", "CF", none, 3, "1"⟩] 10 =
      specMergePoints 10
        [⟨1, "America/Chicago", "CF", none, 2, "1"⟩,
         ⟨2, "America/Chicago", "CF", none, 3, "1"⟩] :=
  (C1_merge_postcondition 10 none
    [⟨1, "America/Chicago", "CF", none, 2, "1"⟩,
     ⟨2, "America/Chicago", "CF", none, 3, "1"⟩]
    (List.Chain.cons (by norm_num) List.Chain.nil) (by decide)).1

/-- C2: with a last persisted timestamp T and persisted sum S, the merge
treats exactly the readings strictly after T as new (the rest are
discarded) and seeds the running sum from S; in the spec's scenario - last
persisted sum 100.0 at T, fetch returning one reading at T and one at T+1h
with amount 5.0 - the result is exactly one point
{start: T+1h, state: 5.0, sum: 105.0}. -/
theorem C2_dedup_filter :
    (∀ (T : Int) (S : Rat) (rs : List Reading),
      mergeLoop (some T) rs S =
        specMergePoints S (rs.filter fun r => T < r.read_datetime)) ∧
    (∀ (T : Int) (a : Rat) (u1 u2 p1 p2 : String) (m1 m2 : Option String),
      mergeLoop (some T)
        [⟨T, chicago, u1, m1, a, p1⟩, ⟨T + 1, chicago, u2, m2, 5, p2⟩]
        100 = [⟨T + 1, 5, 105⟩]) := by
  refine ⟨fun T S rs => mergeLoop_skips_le T rs S, ?_⟩
  intro T a u1 u2 p1 p2 m1 m2
  rw [mergeLoop_skips_le, List.filter_cons, List.filter_cons,
    List.filter_nil, if_neg (by simp), if_pos (by simp),
    specMergePoints, specMergePoints]
  norm_num

/-- C10: calling `async_get_data` on a client that has never established a
session raises the generic `KCWaterApiClientError`, without issuing any
network request and without mutating client state. -/
theorem C10_fetch_requires_session (now start end_ : Int) (env : FetchEnv) :
    asyncGetData none now start end_ env =
      (.error (.api (.clientError
        "Account not initialized. Call async_login first." none)),
       none, []) := rfl

/-- C3 (divergence): `_verify_response_or_raise` does raise the
authentication error for a 400 from the token endpoint (and for 401/403),
but `_api_wrapper`'s catch-all `except Exception` re-wraps it, so the
exception escaping `_api_wrapper` is the generic `KCWaterApiClientError`
(with the authentication error only as its cause), never the
`KCWaterApiClientAuthenticationError` itself; timeouts and connection
failures do become `KCWaterApiClientCommunicationError`, and other
exceptions the generic error. -/
theorem C3_error_classification_divergence :
    verifyResponseOrRaise 400 TOKEN_URL =
      .error (.kcAuthError "Invalid credentials") ∧
    apiWrapperResult (RequestOutcome.response 400 TOKEN_URL ()) =
      .error (.clientError "Something really wrong happened!"
        (some (.kcAuthError "Invalid credentials"))) ∧
    (∀ msg, apiWrapperResult (RequestOutcome.response 400 TOKEN_URL ()) ≠
      (.error (.authenticationError msg) : Except KCError Unit)) ∧
    apiWrapperResult
        (RequestOutcome.raised .timeoutError : RequestOutcome Unit) =
      .error (.communicationError "Timeout error fetching information"
        .timeoutError) ∧
    apiWrapperResult
        (RequestOutcome.raised .socketGaierror : RequestOutcome Unit) =
      .error (.communicationError "Error fetching information"
        .socketGaierror) ∧
    apiWrapperResult
        (RequestOutcome.raised .aiohttpClientError : RequestOutcome Unit) =
      .error (.communicationError "Error fetching information"
        .aiohttpClientError) ∧
    apiWrapperResult
        (RequestOutcome.raised (.otherException "boom") :
          RequestOutcome Unit) =
      .error (.clientError "Something really wrong happened!"
        (some (.otherException "boom"))) ∧
    apiWrapperResult (RequestOutcome.response 401 HOURLY_USAGE_URL ()) =
      .error (.clientError "Something really wrong happened!"
        (some (.kcAuthError "Invalid credentials"))) := by
  refine ⟨by decide, by decide, ?_, by decide, by decide, by decide,
    by decide, by decide⟩
  intro msg h
  have h0 : apiWrapperResult (RequestOutcome.response 400 TOKEN_URL ()) =
      (.error (.clientError "Something really wrong happened!"
        (some (.kcAuthError "Invalid credentials"))) :
        Except KCError Unit) := by decide
  rw [h0] at h
  exact KCError.noConfusion (Except.error.inj h)

/-- C7: every history item's combined `readDate`/`readDateTime` is parsed,
tagged with the America/Chicago reference timezone, and emitted shifted
back exactly one hour; the source timestamp "01-15-2024 3 PM" parses to
15:00 and normalizes to 14:00 (2 PM) local reference time. -/
theorem C7_timestamp_normalization :
    (∀ (it : HistoryItem) (dt : DateTime),
      parseHistoryTimestamp it.readDate it.readDateTime = some dt →
      parseItem it = some ⟨dt.epochHours - 1, chicago, it.uom,
        it.meterNumber, it.rawConsumption, it.port⟩) ∧
    parseHistoryTimestamp "01-15-2024" "3 PM" =
      some ⟨2024, 1, 15, 15⟩ ∧
    (parseItem ⟨"01-15-2024", "3 PM", "CF", none, 5, "1"⟩).map
        Reading.read_datetime =
      some (DateTime.mk 2024 1 15 14).epochHours ∧
    (parseItem ⟨"01-15-2024", "3 PM", "CF", none, 5, "1"⟩).map Reading.tz =
      some "America/Chicago" := by
  refine ⟨?_, by decide, by decide, by decide⟩
  intro it dt h
  simp [parseItem, h]

/-- Witness for C7 at the spec's example timestamp. -/
theorem C7_timestamp_normalization_witness :
    parseItem ⟨"01-15-2024", "3 PM", "CF", none, 5, "1"⟩ =
      some ⟨(DateTime.mk 2024 1 15 15).epochHours - 1, chicago, "CF",
        none, 5, "1"⟩ :=
  C7_timestamp_normalization.1
    ⟨"01-15-2024", "3 PM", "CF", none, 5, "1"⟩
    ⟨2024, 1, 15, 15⟩ (by decide)

/-- C8: a call of `async_login` while the cached token expiry is strictly
after now performs no network round-trip and leaves the cached session
unchanged; a first (uncached) call performs exactly the login +
customer-info round-trip pair, a second call within the token's validity
window performs none, and a call at or after expiry performs another
pair. -/
theorem C8_session_cache_idempotence (env : LoginEnv)
    (tok : TokenResponse) (info : CustomerInfoResponse)
    (htok : apiWrapperResult env.tokenOutcome = .ok tok)
    (hinfo : apiWrapperResult env.customerOutcome = .ok info) :
    (∀ (a : Account) (now : Int), a.token_exp > now →
      asyncLogin (some a) now env = (.ok (), some a, [])) ∧
    (∀ t0 : Int,
      asyncLogin none t0 env =
        (.ok (), some ⟨tok.customerId, tok.access_token,
          t0 + tok.expires_in, ⟨info.accountNumber, info.serviceId, 1⟩⟩,
         [⟨TOKEN_URL, 10⟩, ⟨CUSTOMER_INFO_URL, 10⟩])) ∧
    (∀ t0 t1 : Int, t1 < t0 + tok.expires_in →
      asyncLogin (some ⟨tok.customerId, tok.access_token,
          t0 + tok.expires_in, ⟨info.accountNumber, info.serviceId, 1⟩⟩)
        t1 env =
        (.ok (), some ⟨tok.customerId, tok.access_token,
          t0 + tok.expires_in, ⟨info.accountNumber, info.serviceId, 1⟩⟩,
         [])) ∧
    (∀ t0 t2 : Int, t0 + tok.expires_in ≤ t2 →
      asyncLogin (some ⟨tok.customerId, tok.access_token,
          t0 + tok.expires_in, ⟨info.accountNumber, info.serviceId, 1⟩⟩)
        t2 env =
        (.ok (), some ⟨tok.customerId, tok.access_token,
          t2 + tok.expires_in, ⟨info.accountNumber, info.serviceId, 1⟩⟩,
         [⟨TOKEN_URL, 10⟩, ⟨CUSTOMER_INFO_URL, 10⟩])) := by
  have hnet : ∀ (st : Option Account) (t : Int),
      loginNetwork st t env =
        (.ok (), some ⟨tok.customerId, tok.access_token,
          t + tok.expires_in, ⟨info.accountNumber, info.serviceId, 1⟩⟩,
         [⟨TOKEN_URL, 10⟩, ⟨CUSTOMER_INFO_URL, 10⟩]) := by
    intro st t
    simp [loginNetwork, apiWrapperRun, htok, hinfo]
  refine ⟨?_, ?_, ?_, ?_⟩
  · intro a now hv
    simp [asyncLogin, hv]
  · intro t0
    simpa [asyncLogin] using hnet none t0
  · intro t0 t1 hv
    simp [asyncLogin, hv]
  · intro t0 t2 hv
    have hnv : ¬ (t0 + tok.expires_in > t2) := not_lt.mpr hv
    simpa [asyncLogin, hnv] using hnet _ t2

/-- Witness for C8: a fresh login against the concrete environment
performs exactly the login + customer-info round-trip pair. -/
theorem C8_session_cache_idempotence_witness :
    asyncLogin none 0 exLoginEnv =
      (.ok (), some ⟨"cust", "tok2", 0 + 3600, ⟨"12345", "svc", 1⟩⟩,
       [⟨TOKEN_URL, 10⟩, ⟨CUSTOMER_INFO_URL, 10⟩]) :=
  (C8_session_cache_idempotence exLoginEnv ⟨"cust", "tok2", 3600⟩
    ⟨"12345", "svc"⟩ (by decide) (by decide)).2.1 0

theorem apiWrapperRun_calls_bound {α : Type} (url : String)
    (o : RequestOutcome α) :
    ∀ c ∈ (apiWrapperRun url o).2, c.timeoutBound = 10 := by
  intro c hc
  simp [apiWrapperRun] at hc
  simp [hc]

theorem loginNetwork_calls_bound (st : Option Account) (now : Int)
    (env : LoginEnv) :
    ∀ c ∈ (loginNetwork st now env).2.2, c.timeoutBound = 10 := by
  intro c hc
  unfold loginNetwork at hc
  cases h1 : apiWrapperResult env.tokenOutcome with
  | error e =>
    simp [apiWrapperRun, h1] at hc
    simp [hc]
  | ok tok =>
    cases h2 : apiWrapperResult env.customerOutcome with
    | error e =>
      simp [apiWrapperRun, h1, h2] at hc
      rcases hc with hc | hc <;> simp [hc]
    | ok info =>
      simp [apiWrapperRun, h1, h2] at hc
      rcases hc with hc | hc <;> simp [hc]

theorem asyncLogin_calls_bound (st : Option Account) (now : Int)
    (env : LoginEnv) :
    ∀ c ∈ (asyncLogin st now env).2.2, c.timeoutBound = 10 := by
  intro c hc
  cases st with
  | none => exact loginNetwork_calls_bound none now env c hc
  | some a =>
    by_cases hv : a.token_exp > now
    · simp [asyncLogin, hv] at hc
    · simp only [asyncLogin, hv, if_false] at hc
      exact loginNetwork_calls_bound (some a) now env c hc

theorem getDataLoop_calls_bound (env : FetchEnv) (now : Int)
    (days : List Int) :
    ∀ (st : Option Account) (acc : List Reading),
      ∀ c ∈ (getDataLoop env now days st acc).2.2, c.timeoutBound = 10 := by
  induction days with
  | nil =>
    intro st acc c hc
    simp [getDataLoop] at hc
  | cons day rest ih =>
    intro st acc c hc
    have hlogin := asyncLogin_calls_bound st now env.loginEnv
    rw [getDataLoop] at hc
    rcases hL : asyncLogin st now env.loginEnv with ⟨r1, st1, calls1⟩
    rw [hL] at hc hlogin
    simp only at hlogin
    cases r1 with
    | error e =>
      simp at hc
      exact hlogin c hc
    | ok u =>
      cases h2 : apiWrapperResult (env.hourlyOutcome day) with
      | error e =>
        simp [apiWrapperRun, h2] at hc
        rcases hc with hc | hc
        · exact hlogin c hc
        · simp [hc]
      | ok hist =>
        cases h3 : parseHistory hist with
        | none =>
          simp [apiWrapperRun, h2, h3] at hc
          rcases hc with hc | hc
          · exact hlogin c hc
          · simp [hc]
        | some rs =>
          simp only [apiWrapperRun, h2, h3] at hc
          rcases hR : getDataLoop env now rest st1 (acc ++ rs)
            with ⟨res, st2, calls3⟩
          have hrest := ih st1 (acc ++ rs)
          rw [hR] at hc hrest
          simp only at hrest
          simp at hc
          rcases hc with hc | hc | hc
          · exact hlogin c hc
          · simp [hc]
          · exact hrest c hc

/-- C9: every network call made by the client - by `async_login` and by
`async_get_data` - carries the fixed timeout bound 10, and a request that
times out yields the communication error with the original `TimeoutError`
attached as its cause. -/
theorem C9_timeout_bound :
    (∀ (st : Option Account) (now : Int) (env : LoginEnv),
      ∀ c ∈ (asyncLogin st now env).2.2, c.timeoutBound = 10) ∧
    (∀ (st : Option Account) (now start end_ : Int) (fenv : FetchEnv),
      ∀ c ∈ (asyncGetData st now start end_ fenv).2.2,
        c.timeoutBound = 10) ∧
    (∀ url : String,
      apiWrapperRun url
          (RequestOutcome.raised .timeoutError : RequestOutcome Unit) =
        (.error (.communicationError "Timeout error fetching information"
          .timeoutError), [⟨url, 10⟩])) := by
  refine ⟨asyncLogin_calls_bound, ?_, fun url => rfl⟩
  intro st now start end_ fenv c hc
  cases st with
  | none => simp [asyncGetData] at hc
  | some a =>
    exact getDataLoop_calls_bound fenv now (queriedDays start end_)
      (some a) [] c hc

/-- Witness for C9: the first call of the concrete fresh login carries the
timeout bound 10. -/
theorem C9_timeout_bound_witness :
    (⟨TOKEN_URL, 10⟩ : NetCall).timeoutBound = 10 :=
  C9_timeout_bound.1 none 0 exLoginEnv ⟨TOKEN_URL, 10⟩ (by decide)

theorem minFold_le (rest : List Reading) :
    ∀ m : Int,
      rest.foldl
          (fun m x => if x.read_datetime < m then x.read_datetime else m)
          m ≤ m ∧
      ∀ x ∈ rest,
        rest.foldl
            (fun m x => if x.read_datetime < m then x.read_datetime else m)
            m ≤ x.read_datetime := by
  induction rest with
  | nil =>
    intro m
    exact ⟨le_refl m, by simp⟩
  | cons x xs ih =>
    intro m
    obtain ⟨h1, h2⟩ :=
      ih (if x.read_datetime < m then x.read_datetime else m)
    have hsm : (if x.read_datetime < m then x.read_datetime else m) ≤ m :=
      by split <;> omega
    have hsx : (if x.read_datetime < m then x.read_datetime else m) ≤
        x.read_datetime := by split <;> omega
    refine ⟨le_trans h1 hsm, ?_⟩
    intro y hy
    rcases List.mem_cons.mp hy with rfl | hy2
    · exact le_trans h1 hsx
    · exact h2 y hy2

theorem minReadDatetime_le (rs : List Reading) (a : Int)
    (h : minReadDatetime rs = some a) :
    ∀ r ∈ rs, a ≤ r.read_datetime := by
  cases rs with
  | nil => cases h
  | cons r rest =>
    obtain ⟨h1, h2⟩ := minFold_le rest r.read_datetime
    injection h with h'
    intro x hx
    rcases List.mem_cons.mp hx with rfl | hx2
    · rw [← h']; exact h1
    · rw [← h']; exact h2 x hx2

/-- C4 (amended): in an incremental invocation the persisted series is
queried over the window anchored at the EARLIEST fetched reading's
timestamp, and the baseline sum and start-timestamp are those of the FIRST
row of the (chronologically ascending) query result - the LEAST recent
persisted point within that window, not the most recent one. -/
theorem C4_incremental_baseline (renv : RecorderEnv) (sid : String)
    (usage : List Reading) (anchor : Int)
    (hanchor : minReadDatetime usage = some anchor)
    (hsorted : List.Pairwise (fun a b : StatRow => a.start ≤ b.start)
      (renv.statsDuring anchor sid))
    (row : StatRow)
    (hrow : (renv.statsDuring anchor sid).head? = some row) :
    incrementalBaseline renv sid usage = some row ∧
    (∀ r ∈ usage, anchor ≤ r.read_datetime) ∧
    (∀ r ∈ renv.statsDuring anchor sid, row.start ≤ r.start) := by
  refine ⟨by simp [incrementalBaseline, hanchor, hrow],
    minReadDatetime_le usage anchor hanchor, ?_⟩
  intro r hr
  rcases hl : renv.statsDuring anchor sid with _ | ⟨h0, rest⟩
  · rw [hl] at hr
    cases hr
  · rw [hl] at hrow hr hsorted
    have h0row : h0 = row := by
      simpa using hrow
    obtain ⟨hall, _⟩ := List.pairwise_cons.mp hsorted
    rcases List.mem_cons.mp hr with rfl | h
    · rw [h0row]
    · rw [← h0row]
      exact hall r h

/-- C4 counterexample: with two persisted rows (100, sum 10) and
(200, sum 50) in the query window anchored at the earliest fetched reading
(timestamp 100), the coordinator's baseline is the oldest row
(100, sum 10), not the most recent one (200, sum 50). -/
theorem C4_counterexample :
    incrementalBaseline ⟨true, fun _ _ => [⟨100, 10⟩, ⟨200, 50⟩]⟩
        "kcwater_ha:12345_water_consumption"
        [⟨100, "America/Chicago", "CF", none, 5, "1"⟩] = some ⟨100, 10⟩ ∧
    ([⟨100, 10⟩, ⟨200, 50⟩] : List StatRow).getLast? = some ⟨200, 50⟩ ∧
    ((⟨100, 10⟩ : StatRow) ≠ ⟨200, 50⟩) := by
  refine ⟨by decide, by decide, by decide⟩

/-- Witness for C4 at the concrete two-row store. -/
theorem C4_incremental_baseline_witness :
    incrementalBaseline ⟨true, fun _ _ => [⟨100, 10⟩, ⟨200, 50⟩]⟩
        "kcwater_ha:12345_water_consumption"
        [⟨100, "America/Chicago", "CF", none, 5, "1"⟩] =
      some ⟨100, 10⟩ :=
  (C4_incremental_baseline ⟨true, fun _ _ => [⟨100, 10⟩, ⟨200, 50⟩]⟩
    "kcwater_ha:12345_water_consumption"
    [⟨100, "America/Chicago", "CF", none, 5, "1"⟩] 100 (by decide)
    (by norm_num [List.pairwise_cons]) ⟨100, 10⟩ (by decide)).1

theorem asyncUpdateData_shape (st : Option Account) (now : Int)
    (fenv : FetchEnv) (renv : RecorderEnv) :
    (∃ e st2, asyncUpdateData st now fenv renv = (.error e, st2, [])) ∨
    (∃ e st2 s en, asyncUpdateData st now fenv renv =
      (.error e, st2, [.fetchData s en])) ∨
    (∃ st2 s en meta pts, asyncUpdateData st now fenv renv =
      (.ok (), st2, [.fetchData s en, .addStatistics meta pts])) := by
  simp only [asyncUpdateData]
  split
  · exact Or.inl ⟨_, _, rfl⟩
  · split
    · split
      · exact Or.inr (Or.inl ⟨_, _, _, _, rfl⟩)
      · exact Or.inr (Or.inr ⟨_, _, _, _, _, rfl⟩)
    · split
      · exact Or.inr (Or.inl ⟨_, _, _, _, rfl⟩)
      · split
        · exact Or.inr (Or.inl ⟨_, _, _, _, rfl⟩)
        · split
          · exact Or.inr (Or.inl ⟨_, _, _, _, rfl⟩)
          · exact Or.inr (Or.inr ⟨_, _, _, _, _, rfl⟩)

/-- C5: every invocation of `_async_update_data` performs at most one
store submission, issued as the last operation of the tick only after the
full batch of points has been computed; an invocation that raises performs
no submission at all, and a successful invocation performs exactly one
(whose batch may be empty). -/
theorem C5_tick_atomicity (st : Option Account) (now : Int)
    (fenv : FetchEnv) (renv : RecorderEnv) :
    ((asyncUpdateData st now fenv renv).2.2.filter isAppend).length ≤ 1 ∧
    (∀ e, (asyncUpdateData st now fenv renv).1 = .error e →
      (asyncUpdateData st now fenv renv).2.2.filter isAppend = []) ∧
    ((asyncUpdateData st now fenv renv).1 = .ok () →
      ∃ s en meta pts, (asyncUpdateData st now fenv renv).2.2 =
        [.fetchData s en, .addStatistics meta pts]) := by
  rcases asyncUpdateData_shape st now fenv renv with
    ⟨e, st2, h⟩ | ⟨e, st2, s, en, h⟩ | ⟨st2, s, en, meta, pts, h⟩ <;>
    rw [h] <;> simp [isAppend]

/-- Witness for C5: a successful FirstRun tick with an empty fetch
performs exactly one submission of an empty batch. -/
theorem C5_tick_atomicity_witness :
    ((asyncUpdateData (some exAccount) 1000 exFetchEnvEmpty
        exRecorderFirstRun).2.2.filter isAppend).length ≤ 1 ∧
    (∃ s en meta pts,
      (asyncUpdateData (some exAccount) 1000 exFetchEnvEmpty
        exRecorderFirstRun).2.2 =
        [.fetchData s en, .addStatistics meta pts]) :=
  ⟨(C5_tick_atomicity (some exAccount) 1000 exFetchEnvEmpty
      exRecorderFirstRun).1,
   (C5_tick_atomicity (some exAccount) 1000 exFetchEnvEmpty
      exRecorderFirstRun).2.2 (by decide)⟩

/-- C6 (amended): a FirstRun invocation fetches the half-open window from
31 days ago through yesterday (end-exclusive, so the per-day loop queries
the 30 days from 31 days ago up to 2 days ago), uses baseline 0, treats
every fetched reading as new, and submits one point per fetched reading
(equal to the number of distinct reading timestamps whenever those are
pairwise distinct), with the final point's sum equal to the total of all
fetched amounts. -/
theorem C6_first_run (st : Option Account) (now : Int) (fenv : FetchEnv)
    (renv : RecorderEnv) (hfr : renv.lastStatExists = false)
    (an : String) (st1 : Option Account) (c1 : List NetCall)
    (hacct : getAccountNumber st now fenv.loginEnv = (.ok an, st1, c1))
    (usage : List Reading) (st2 : Option Account) (c2 : List NetCall)
    (hfetch : asyncGetData st1 now (now - 744) (now - 24) fenv =
      (.ok usage, st2, c2)) :
    asyncUpdateData st now fenv renv =
      (.ok (), st2,
       [.fetchData (now - 744) (now - 24),
        .addStatistics (consumptionMetadata an (statisticId an))
          (mergeLoop none usage 0)]) ∧
    queriedDays (now - 744) (now - 24) =
      (List.range 30).map (fun i => now - 744 + 24 * i) ∧
    mergeLoop none usage 0 = specMergePoints 0 usage ∧
    (mergeLoop none usage 0).length = usage.length ∧
    ((usage.map Reading.read_datetime).Nodup →
      (mergeLoop none usage 0).length =
        ((usage.map Reading.read_datetime).dedup).length) ∧
    (usage ≠ [] → ∃ p, (mergeLoop none usage 0).getLast? = some p ∧
      p.sum = amountsSum usage) := by
  have he := mergeLoop_of_none_discarded none usage 0 (fun r _ => rfl)
  refine ⟨?_, ?_, he, ?_, ?_, ?_⟩
  · simp [asyncUpdateData, hacct, hfr, hfetch]
  · have h720 : (now - 24) - (now - 744) = (720 : Int) := by ring
    rw [queriedDays, h720]
    rw [show Int.toNat 720 / 24 = 30 from rfl]
  · rw [he, specMergePoints_length]
  · intro hnd
    rw [List.dedup_eq_self.mpr hnd, he, specMergePoints_length,
      List.length_map]
  · intro hne
    obtain ⟨p, hp, hsum⟩ := specMergePoints_getLast_sum 0 usage hne
    refine ⟨p, by rw [he]; exact hp, by rw [hsum, zero_add]⟩

/-- C6 counterexample: two fetched readings sharing one timestamp and
totalling 500.0 produce a final sum of 500.0 but TWO statistic points for
ONE distinct reading timestamp, refuting "as many points as distinct
reading timestamps". -/
theorem C6_counterexample :
    mergeLoop none
        [⟨0, "America/Chicago", "CF", none, 250, "1"⟩,
         ⟨0, "America/Chicago", "CF", none, 250, "1"⟩] 0 =
      [⟨0, 250, 250⟩, ⟨0, 250, 500⟩] ∧
    (mergeLoop none
        [⟨0, "America/Chicago", "CF", none, 250, "1"⟩,
         ⟨0, "America/Chicago", "CF", none, 250, "1"⟩] 0).length = 2 ∧
    (([⟨0, "America/Chicago", "CF", none, 250, "1"⟩,
       ⟨0, "America/Chicago", "CF", none, 250, "1"⟩] :
        List Reading).map Reading.read_datetime).dedup.length = 1 ∧
    (2 : Nat) ≠ 1 := by
  refine ⟨?_, ?_, by decide, by decide⟩
  · norm_num [mergeLoop, discards]
  · norm_num [mergeLoop, discards]

/-- Witness for C6: the concrete FirstRun tick over an empty fetch. -/
theorem C6_first_run_witness :
    asyncUpdateData (some exAccount) 1000 exFetchEnvEmpty
        exRecorderFirstRun =
      (.ok (), some exAccount,
       [.fetchData (1000 - 744) (1000 - 24),
        .addStatistics (consumptionMetadata "12345" (statisticId "12345"))
          (mergeLoop none [] 0)]) :=
  (C6_first_run (some exAccount) 1000 exFetchEnvEmpty exRecorderFirstRun
    rfl "12345" (some exAccount) [] (by decide)
    [] (some exAccount) (List.replicate 30 ⟨HOURLY_USAGE_URL, 10⟩)
    (by decide)).1

end KCWater
